import Mathlib

/-!
Shallow embedding of the `MultiSweep` optimizer of PhysiCOOL
(`src/physicool/optimization.py`, class `MultiSweep`, lines 183-369)
together with the error function `compute_error`
(`src/physicool/physicool.py`, lines 195-199).

Real-valued quantities are modelled as rationals and numpy arrays as lists.
Matplotlib calls and the `xlim`/`ylim` fields mutate only figure state,
which never feeds back into the optimization state, so they are omitted.
A Python `KeyError` raised by a failed dict lookup is modelled by `Option`:
`none` is an uncaught exception aborting the sweep.
-/

namespace PhysiCool

/-- Model of `compute_error` (physicool.py, lines 195-199): the sum of the squared
elementwise differences between model output and reference data; arrays of
equal shape are modelled as lists of equal length. -/
def compute_error (model_data reference_data : List ℚ) : ℚ :=
  (List.zipWith (fun a b => (a - b) ^ 2) model_data reference_data).sum

/-- Model of `np.linspace(lo, hi, n)`: `n` evenly spaced samples from `lo` to `hi`,
both endpoints included. -/
def linspace (lo hi : ℚ) (n : ℕ) : List ℚ :=
  if n = 0 then []
  else if n = 1 then [lo]
  else (List.range n).map (fun k : ℕ => lo + (k : ℚ) * (hi - lo) / ((n : ℚ) - 1))

/-- Model of `np.argmin` on a 1-D sequence: the index of the minimum, ties resolved
to the first occurrence (`0` on the empty list). -/
def argmin : List ℚ → ℕ
  | [] => 0
  | [_] => 0
  | a :: b :: t =>
    let r := argmin (b :: t)
    if (b :: t).getD r 0 < a then r + 1 else 0

/-- The mutable state of a `MultiSweep` instance (optimization.py,
lines 184-207).  `model` is the black box (`self.model`), invoked by
`compute_objective` on the two-element list
`[self.parameters_in_sweep["x"], self.parameters_in_sweep["y"]]`;
`data` is the reference data.  The Python dict `parameters_in_sweep` is
modelled as an association list where insertion puts the new binding first
and drops any previous binding of the same key, and lookup takes the first
match. -/
structure MSState where
  model : List ℚ → List ℚ
  data : List ℚ
  n_levels : ℕ
  npdir : ℕ
  ppdir : ℚ
  results : List (List (List ℚ))
  x : List ℚ
  y : List ℚ
  parameters_in_sweep : List (String × ℚ)
  level : ℕ
  opt_point : ℚ × ℚ
  param_labels : String × String
  param_bounds : (Option ℚ × Option ℚ) × (Option ℚ × Option ℚ)

namespace MultiSweep

/-- Model of `MultiSweep.__init__` (optimization.py, lines 184-207).  `x`/`y` are
allocated as `np.zeros((npdir, 1))`, modelled as `npdir` zeros (they are
overwritten by `set_bounds` before any read). -/
def init (model : List ℚ → List ℚ) (data : List ℚ)
    (n_levels npdir : ℕ) (ppdir : ℚ) : MSState where
  model := model
  data := data
  n_levels := n_levels
  npdir := npdir
  ppdir := ppdir
  results := List.replicate n_levels (List.replicate npdir (List.replicate npdir 0))
  x := List.replicate npdir 0
  y := List.replicate npdir 0
  parameters_in_sweep := []
  level := 0
  opt_point := (0, 0)
  param_labels := ("x", "y")
  param_bounds := ((none, none), (none, none))

/-- Model of `MultiSweep.set_param_bounds` (lines 209-217): a `None` argument is
replaced by `[None, None]`. -/
def set_param_bounds (s : MSState)
    (param1 param2 : Option (Option ℚ × Option ℚ)) : MSState :=
  { s with param_bounds := (param1.getD (none, none), param2.getD (none, none)) }

/-- Model of `MultiSweep.set_fit_value` (lines 340-342). -/
def set_fit_value (s : MSState) (x y : ℚ) : MSState :=
  { s with opt_point := (x, y) }

/-- Model of `MultiSweep.select_params` (lines 344-346). -/
def select_params (s : MSState) (label1 label2 : String) : MSState :=
  { s with param_labels := (label1, label2) }

/-- The factor computed at the top of `set_bounds` (line 220):
`factor = self.ppdir / (self.level * 2 + 1)`. -/
def shrink_factor (ppdir : ℚ) (level : ℕ) : ℚ :=
  ppdir / ((level : ℚ) * 2 + 1)

/-- Python truthiness of one bound entry: `None` and `0` are falsy. -/
def truthy : Option ℚ → Bool
  | none => false
  | some v => v != 0

/-- Model of `any(self.param_bounds[k])` (lines 224 and 236): true iff at least one
entry of the bound pair is truthy. -/
def anyB (b : Option ℚ × Option ℚ) : Bool :=
  truthy b.1 || truthy b.2

/-- The lower window endpoint for one parameter (lines 222, 225-227):
`min_limit = c - factor * c`, raised to a set lower bound when the
`any(...)` guard fires and `min_limit` falls below that bound. -/
def lowEndpoint (c f : ℚ) (b : Option ℚ × Option ℚ) : ℚ :=
  let lo := c - f * c
  if anyB b then
    match b.1 with
    | some lb => if lo < lb then lb else lo
    | none => lo
  else lo

/-- The upper window endpoint for one parameter (lines 223, 228-230):
`max_limit = c + factor * c`, lowered to a set upper bound when the
`any(...)` guard fires and `max_limit` exceeds that bound. -/
def highEndpoint (c f : ℚ) (b : Option ℚ × Option ℚ) : ℚ :=
  let hi := c + f * c
  if anyB b then
    match b.2 with
    | some ub => if ub < hi then ub else hi
    | none => hi
  else hi

/-- One parameter's candidate values (lines 222-232 resp. 234-243):
`np.linspace(min_limit, max_limit, self.npdir)` over the clamped window. -/
def computeAxis (c f : ℚ) (b : Option ℚ × Option ℚ) (n : ℕ) : List ℚ :=
  linspace (lowEndpoint c f b) (highEndpoint c f b) n

/-- Model of `MultiSweep.set_bounds` (lines 219-243). -/
def set_bounds (s : MSState) : MSState :=
  let f := shrink_factor s.ppdir s.level
  { s with
    x := computeAxis s.opt_point.1 f s.param_bounds.1 s.npdir
    y := computeAxis s.opt_point.2 f s.param_bounds.2 s.npdir }

/-- Python dict assignment `d[k] = v`: the new binding shadows (replaces)
any previous binding of `k`. -/
def dictInsert (k : String) (v : ℚ) (d : List (String × ℚ)) : List (String × ℚ) :=
  (k, v) :: d.filter (fun p => p.1 != k)

/-- Model of `self.results[self.level][i][j] = v` on the 3-D error tensor;
out-of-range indices leave the tensor unchanged (the code only writes in
range). -/
def update3 (t : List (List (List ℚ))) (L i j : ℕ) (v : ℚ) :
    List (List (List ℚ)) :=
  t.set L ((t.getD L []).set i (((t.getD L []).getD i []).set j v))

/-- The body of the inner loop of `compute_objective` (lines 249-255):
stores the two coordinates in `parameters_in_sweep` under the configured
labels, reads back `parameters_in_sweep["x"]` and `parameters_in_sweep["y"]`
with the hard-coded keys of line 252 (`none` = `KeyError`), runs the model
on that two-element list and writes the error into the tensor cell. -/
def cellStep (s : MSState) (i j : ℕ) (xv yv : ℚ) : Option MSState :=
  let d := dictInsert s.param_labels.2 yv (dictInsert s.param_labels.1 xv s.parameters_in_sweep)
  match d.lookup "x", d.lookup "y" with
  | some vx, some vy =>
    let N := s.model [vx, vy]
    some { s with
      parameters_in_sweep := d
      results := update3 s.results s.level i j (compute_error N s.data) }
  | _, _ => none

/-- The inner `for j, y_value in enumerate(self.y)` loop of
`compute_objective`, threaded over the evolving state. -/
def objLoopY (s : MSState) (i : ℕ) (xv : ℚ) (j : ℕ) : List ℚ → Option MSState
  | [] => some s
  | yv :: ys => (cellStep s i j xv yv).bind fun s2 => objLoopY s2 i xv (j + 1) ys

/-- The outer `for i, x_value in enumerate(self.x)` loop of
`compute_objective`. -/
def objLoopX (s : MSState) (i : ℕ) : List ℚ → Option MSState
  | [] => some s
  | xv :: xs => (objLoopY s i xv 0 s.y).bind fun s2 => objLoopX s2 (i + 1) xs

/-- Model of `MultiSweep.compute_objective` (lines 245-255). -/
def compute_objective (s : MSState) : Option MSState :=
  objLoopX s 0 s.x

/-- Model of `MultiSweep.get_new_params` (lines 257-262): row-major `np.argmin` over
`self.results[self.level]`, inverted via `i = floor(I / npdir)`,
`j = I - npdir * i`. -/
def get_new_params (s : MSState) : ℚ × ℚ :=
  let flat := (s.results.getD s.level []).flatten
  let I := argmin flat
  let i := I / s.npdir
  let j := I - s.npdir * i
  (s.x.getD i 0, s.y.getD j 0)

/-- Model of `MultiSweep.run_level` (lines 303-338), with the plotting and the
`xlim`/`ylim` bookkeeping (pure visualization) omitted: recompute the grids,
evaluate every cell, then move `opt_point` to the level optimum. -/
def run_level (s : MSState) : Option MSState :=
  (compute_objective (set_bounds s)).map fun s2 =>
    { s2 with opt_point := get_new_params s2 }

/-- The `while self.level < self.n_levels` loop of `run_sweep`
(lines 365-367), driven by the fuel `n_levels - level`; `run_level` never
changes `level` or `n_levels`, so the fuel tracks the loop guard exactly. -/
def runLoop : ℕ → MSState → Option MSState
  | 0, s => some s
  | k + 1, s => (run_level s).bind fun s2 => runLoop k { s2 with level := s2.level + 1 }

/-- Model of `MultiSweep.run_sweep` (lines 348-369), figure creation omitted:
returns `(self.opt_point[0], self.opt_point[1])`. -/
def run_sweep (s : MSState) : Option (ℚ × ℚ) :=
  (runLoop (s.n_levels - s.level) s).map fun s2 => (s2.opt_point.1, s2.opt_point.2)

end MultiSweep

/-- Construction of a sweep: `MultiSweep.__init__` (lines 184-207) followed
by `MultiSweep.set_param_bounds` (lines 209-217).  Neither method contains
any validation or `raise` statement, so construction always succeeds; the
`Except` codomain records that no error path exists. -/
def construct (model : List ℚ → List ℚ) (data : List ℚ)
    (n_levels npdir : ℕ) (ppdir : ℚ)
    (param1 param2 : Option (Option ℚ × Option ℚ)) : Except String MSState :=
  .ok (MultiSweep.set_param_bounds (MultiSweep.init model data n_levels npdir ppdir) param1 param2)

section ListLemmas

variable {α : Type}

theorem getD_set_ne (l : List α) (i j : ℕ) (a d : α) (h : i ≠ j) :
    (l.set i a).getD j d = l.getD j d := by
  simp [List.getD_eq_getElem?_getD, List.getElem?_set_ne h]

theorem getD_set_self (l : List α) (i : ℕ) (a d : α) (h : i < l.length) :
    (l.set i a).getD i d = a := by
  simp [List.getD_eq_getElem?_getD, List.getElem?_set_self, h]

theorem set_getD_self (l : List α) (i : ℕ) (d : α) (h : i < l.length) :
    l.set i (l.getD i d) = l := by
  induction l generalizing i with
  | nil => simp at h
  | cons a t ih =>
    cases i with
    | zero => simp
    | succ i =>
      simp only [List.set_cons_succ, List.getD_cons_succ]
      rw [ih i (by simpa using h)]

theorem take_set_succ (l : List α) (j : ℕ) (v : α) (h : j < l.length) :
    (l.set j v).take (j + 1) = l.take j ++ [v] := by
  induction l generalizing j with
  | nil => simp at h
  | cons a t ih =>
    cases j with
    | zero => simp
    | succ j =>
      simp only [List.set_cons_succ, List.take_succ_cons, List.cons_append,
        List.cons.injEq, true_and]
      exact ih j (by simpa using h)

theorem getD_mem (l : List α) (n : ℕ) (d : α) (h : n < l.length) :
    l.getD n d ∈ l := by
  rw [List.getD_eq_getElem l d h]
  exact List.getElem_mem h

end ListLemmas

/-- The function `linspace` always produces exactly `n` values. -/
theorem linspace_length (lo hi : ℚ) (n : ℕ) : (linspace lo hi n).length = n := by
  unfold linspace
  split_ifs with h0 h1
  · simp [h0]
  · simp [h1]
  · rw [List.length_map, List.length_range]

/-- The `k`-th value of an `n`-point linspace, `2 ≤ n`. -/
theorem linspace_getD (lo hi : ℚ) (n k : ℕ) (h2 : 2 ≤ n) (hk : k < n) :
    (linspace lo hi n).getD k 0 = lo + k * (hi - lo) / ((n : ℚ) - 1) := by
  have h0 : ¬ n = 0 := by omega
  have h1 : ¬ n = 1 := by omega
  unfold linspace
  rw [if_neg h0, if_neg h1, List.getD_eq_getElem?_getD, List.getElem?_map,
    List.getElem?_range hk]
  simp

/-- The first value of a nonempty linspace is the lower endpoint. -/
theorem linspace_getD_head (lo hi : ℚ) (n : ℕ) (h1 : 1 ≤ n) :
    (linspace lo hi n).getD 0 0 = lo := by
  rcases Nat.lt_or_ge n 2 with h | h
  · have hn : n = 1 := by omega
    subst hn
    simp [linspace]
  · rw [linspace_getD lo hi n 0 h (by omega)]
    push_cast
    ring

/-- The last value of an `n`-point linspace, `2 ≤ n`, is the upper
endpoint. -/
theorem linspace_getD_last (lo hi : ℚ) (n : ℕ) (h2 : 2 ≤ n) :
    (linspace lo hi n).getD (n - 1) 0 = hi := by
  rw [linspace_getD lo hi n (n - 1) h2 (by omega)]
  have hne : ((n : ℚ) - 1) ≠ 0 := by
    have : (2 : ℚ) ≤ (n : ℚ) := by exact_mod_cast h2
    intro hc
    nlinarith
  have hcast : ((n - 1 : ℕ) : ℚ) = (n : ℚ) - 1 := by
    have : 1 ≤ n := by omega
    push_cast [this]
    ring
  rw [hcast]
  field_simp

/-- Consecutive linspace values differ by the constant step
`(hi - lo) / (n - 1)`. -/
theorem linspace_step (lo hi : ℚ) (n k : ℕ) (h2 : 2 ≤ n) (hk : k + 1 < n) :
    (linspace lo hi n).getD (k + 1) 0 - (linspace lo hi n).getD k 0 =
      (hi - lo) / ((n : ℚ) - 1) := by
  rw [linspace_getD lo hi n (k + 1) h2 hk, linspace_getD lo hi n k h2 (by omega)]
  push_cast
  ring

/-- When the window is degenerate (`lo = hi = 0`) the linspace is a list of
`n` zeros. -/
theorem linspace_zero (n : ℕ) : linspace 0 0 n = List.replicate n 0 := by
  rcases Nat.lt_or_ge n 2 with h | h
  · interval_cases n
    · simp [linspace]
    · simp [linspace]
  · have hn0 : ¬ n = 0 := by omega
    have hn1 : ¬ n = 1 := by omega
    unfold linspace
    rw [if_neg hn0, if_neg hn1]
    have hf : (fun k : ℕ => (0 : ℚ) + (k : ℚ) * ((0 : ℚ) - 0) / ((n : ℚ) - 1)) =
        fun _ : ℕ => (0 : ℚ) := by
      funext k
      ring
    rw [hf, List.map_const', List.length_range]

/-- A linspace with `lo ≤ hi` is (weakly) ascending. -/
theorem linspace_chain (lo hi : ℚ) (n : ℕ) (h : lo ≤ hi) :
    List.Chain' (· ≤ ·) (linspace lo hi n) := by
  rcases Nat.lt_or_ge n 2 with hn | hn
  · interval_cases n <;> simp [linspace]
  · obtain ⟨m, rfl⟩ : ∃ m, n = m + 2 := ⟨n - 2, by omega⟩
    have hn0 : ¬ m + 2 = 0 := by omega
    have hn1 : ¬ m + 2 = 1 := by omega
    unfold linspace
    rw [if_neg hn0, if_neg hn1, List.chain'_map]
    have hm : m + 2 = (m + 1) + 1 := by omega
    rw [hm, List.chain'_range_succ]
    intro i hi'
    have hd : (0 : ℚ) ≤ hi - lo := by linarith
    have hpos : (0 : ℚ) < ((m + 1 + 1 : ℕ) : ℚ) - 1 := by
      push_cast
      linarith
    have hle : ((i : ℚ)) * (hi - lo) ≤ ((i + 1 : ℕ) : ℚ) * (hi - lo) := by
      apply mul_le_mul_of_nonneg_right _ hd
      push_cast
      linarith
    have hdiv : ((i : ℚ)) * (hi - lo) / (((m + 1 + 1 : ℕ) : ℚ) - 1) ≤
        ((i + 1 : ℕ) : ℚ) * (hi - lo) / (((m + 1 + 1 : ℕ) : ℚ) - 1) := by
      gcongr
    exact add_le_add_left hdiv lo

/-- Every linspace value lies between the two endpoints. -/
theorem linspace_mem_bounds (lo hi : ℚ) (n : ℕ) (v : ℚ)
    (hv : v ∈ linspace lo hi n) : min lo hi ≤ v ∧ v ≤ max lo hi := by
  rcases Nat.lt_or_ge n 2 with hn | hn
  · interval_cases n
    · simp [linspace] at hv
    · simp [linspace] at hv
      subst hv
      constructor
      · exact min_le_left _ _
      · exact le_max_left _ _
  · have hn0 : ¬ n = 0 := by omega
    have hn1 : ¬ n = 1 := by omega
    simp only [linspace, hn0, hn1, if_false, List.mem_map, List.mem_range] at hv
    obtain ⟨k, hk, rfl⟩ := hv
    have hpos : (0 : ℚ) < (n : ℚ) - 1 := by
      have : (2 : ℚ) ≤ (n : ℚ) := by exact_mod_cast hn
      linarith
    have ht0 : (0 : ℚ) ≤ (k : ℚ) / ((n : ℚ) - 1) := by positivity
    have ht1 : (k : ℚ) / ((n : ℚ) - 1) ≤ 1 := by
      rw [div_le_one hpos]
      have : (k : ℚ) ≤ (n : ℚ) - 1 := by
        have : (k : ℚ) + 1 ≤ (n : ℚ) := by exact_mod_cast hk
        linarith
      linarith
    have hv' : lo + (k : ℚ) * (hi - lo) / ((n : ℚ) - 1) =
        lo + ((k : ℚ) / ((n : ℚ) - 1)) * (hi - lo) := by ring
    rw [hv']
    set t := (k : ℚ) / ((n : ℚ) - 1) with ht
    rcases le_total lo hi with hlh | hhl
    · rw [min_eq_left hlh, max_eq_right hlh]
      constructor
      · nlinarith
      · nlinarith
    · rw [min_eq_right hhl, max_eq_left hhl]
      constructor
      · nlinarith
      · nlinarith

/-- The function `argmin` returns an in-range index attaining the minimum, with ties
resolved to the first occurrence. -/
theorem argmin_spec : ∀ l : List ℚ, l ≠ [] →
    argmin l < l.length ∧
    (∀ k, k < l.length → l.getD (argmin l) 0 ≤ l.getD k 0) ∧
    (∀ k, k < argmin l → l.getD (argmin l) 0 < l.getD k 0) := by
  intro l
  induction l with
  | nil => intro h; exact absurd rfl h
  | cons a t ih =>
    intro _
    cases t with
    | nil =>
      refine ⟨by simp [argmin], ?_, ?_⟩
      · intro k hk
        have hk0 : k = 0 := by simpa using hk
        subst hk0
        simp [argmin]
      · intro k hk
        simp [argmin] at hk
    | cons b t' =>
      obtain ⟨ihlen, ihmin, ihfirst⟩ := ih (by simp)
      show _ ∧ _ ∧ _
      rw [show argmin (a :: b :: t') =
        (if (b :: t').getD (argmin (b :: t')) 0 < a then argmin (b :: t') + 1 else 0)
        from rfl]
      split_ifs with hlt
      · refine ⟨by simpa using ihlen, ?_, ?_⟩
        · intro k hk
          cases k with
          | zero => simpa using le_of_lt hlt
          | succ k =>
            simp only [List.getD_cons_succ]
            exact ihmin k (by simpa using hk)
        · intro k hk
          cases k with
          | zero => simpa using hlt
          | succ k =>
            simp only [List.getD_cons_succ]
            exact ihfirst k (by omega)
      · push_neg at hlt
        refine ⟨by simp, ?_, ?_⟩
        · intro k hk
          cases k with
          | zero => simp
          | succ k =>
            simp only [List.getD_cons_zero, List.getD_cons_succ]
            exact le_trans hlt (ihmin k (by simpa using hk))
        · intro k hk
          omega

/-- Literal string comparisons used when evaluating the sweep on concrete
states (simp does not reduce `String.beq` inside match scrutinees on its
own). -/
lemma beq_xx : (("x" : String) == "x") = true := by decide

lemma beq_xy : (("x" : String) == "y") = false := by decide

lemma beq_yx : (("y" : String) == "x") = false := by decide

lemma beq_yy : (("y" : String) == "y") = true := by decide

lemma bne_xy : (("x" : String) != "y") = true := by decide

lemma bne_yx : (("y" : String) != "x") = true := by decide

lemma beq_ax : (("a" : String) == "x") = false := by decide

lemma beq_bx : (("b" : String) == "x") = false := by decide

lemma beq_xa : (("x" : String) == "a") = false := by decide

lemma beq_xb : (("x" : String) == "b") = false := by decide

lemma beq_ya : (("y" : String) == "a") = false := by decide

lemma beq_yb : (("y" : String) == "b") = false := by decide

lemma bne_ab : (("a" : String) != "b") = true := by decide

lemma bne_ba : (("b" : String) != "a") = true := by decide

namespace MultiSweep

/-- One fully evaluated row of the error matrix: the errors of
`(xv, yv)` for `yv` ranging over `ys`. -/
def evalRow (model : List ℚ → List ℚ) (data : List ℚ) (xv : ℚ)
    (ys : List ℚ) : List ℚ :=
  ys.map fun yv => compute_error (model [xv, yv]) data

/-- The fully evaluated error matrix for the grids `xs`, `ys` (row-major:
`xs` outer, `ys` inner). -/
def evalMatrix (model : List ℚ → List ℚ) (data : List ℚ)
    (xs ys : List ℚ) : List (List ℚ) :=
  xs.map fun xv => evalRow model data xv ys

/-- Writing the values `vs` into the consecutive cells `j, j+1, …` of row
`i` of slice `L` of the tensor. -/
def writeRow (t : List (List (List ℚ))) (L i j : ℕ) :
    List ℚ → List (List (List ℚ))
  | [] => t
  | v :: vs => writeRow (update3 t L i j v) L i (j + 1) vs

/-- Writing the rows `rs` into the consecutive rows `i, i+1, …` of slice
`L` of the tensor. -/
def writeMatrix (t : List (List (List ℚ))) (L i : ℕ) :
    List (List ℚ) → List (List (List ℚ))
  | [] => t
  | r :: rs => writeMatrix (writeRow t L i 0 r) L (i + 1) rs

theorem lookup_dictInsert_x (d : List (String × ℚ)) (xv yv : ℚ) :
    (dictInsert "y" yv (dictInsert "x" xv d)).lookup "x" = some xv := by
  simp [dictInsert, List.lookup, beq_xy, bne_xy, beq_xx]

theorem lookup_dictInsert_y (d : List (String × ℚ)) (xv yv : ℚ) :
    (dictInsert "y" yv (dictInsert "x" xv d)).lookup "y" = some yv := by
  simp [dictInsert, List.lookup, beq_yy]

/-- With the default labels the cell body always succeeds: the black box is
invoked on `[xv, yv]` and the error lands in cell `(level, i, j)`. -/
theorem cellStep_default (s : MSState) (i j : ℕ) (xv yv : ℚ)
    (h : s.param_labels = ("x", "y")) :
    cellStep s i j xv yv = some { s with
      parameters_in_sweep :=
        dictInsert "y" yv (dictInsert "x" xv s.parameters_in_sweep)
      results := update3 s.results s.level i j
        (compute_error (s.model [xv, yv]) s.data) } := by
  unfold cellStep
  rw [h]
  simp only [lookup_dictInsert_x, lookup_dictInsert_y]

/-- If the configured labels leave the hard-coded key `"x"` unbound, the
cell body raises `KeyError` (evaluates to `none`). -/
theorem cellStep_keyerror (s : MSState) (i j : ℕ) (xv yv : ℚ)
    (h1 : s.param_labels.1 ≠ "x") (h2 : s.param_labels.2 ≠ "x")
    (h3 : s.parameters_in_sweep.lookup "x" = none) :
    cellStep s i j xv yv = none := by
  unfold cellStep
  have hx : (dictInsert s.param_labels.2 yv
      (dictInsert s.param_labels.1 xv s.parameters_in_sweep)).lookup "x" = none := by
    rw [List.lookup_eq_none_iff] at h3 ⊢
    intro p hp
    simp only [dictInsert, List.mem_cons] at hp
    rcases hp with rfl | hp
    · simpa using fun hc => h2 hc.symm
    · rcases List.mem_cons.mp (List.mem_of_mem_filter hp) with rfl | hp'
      · simpa using fun hc => h1 hc.symm
      · exact h3 p (List.mem_of_mem_filter hp')
  simp only [hx]

theorem update3_length (t : List (List (List ℚ))) (L i j : ℕ) (v : ℚ) :
    (update3 t L i j v).length = t.length := by
  simp [update3]

theorem update3_frame (t : List (List (List ℚ))) (L i j : ℕ) (v : ℚ)
    (L' : ℕ) (h : L' ≠ L) :
    (update3 t L i j v).getD L' [] = t.getD L' [] := by
  exact getD_set_ne t L L' _ [] (Ne.symm h)

theorem update3_slice (t : List (List (List ℚ))) (L i j : ℕ) (v : ℚ)
    (hL : L < t.length) :
    (update3 t L i j v).getD L [] =
      (t.getD L []).set i (((t.getD L []).getD i []).set j v) := by
  exact getD_set_self t L _ [] hL

theorem writeRow_length : ∀ (vs : List ℚ) (t : List (List (List ℚ))) (L i j : ℕ),
    (writeRow t L i j vs).length = t.length
  | [], _, _, _, _ => rfl
  | v :: vs, t, L, i, j => by
    rw [writeRow, writeRow_length vs, update3_length]

theorem writeRow_frame : ∀ (vs : List ℚ) (t : List (List (List ℚ))) (L i j L' : ℕ),
    L' ≠ L → (writeRow t L i j vs).getD L' [] = t.getD L' []
  | [], _, _, _, _, _, _ => rfl
  | v :: vs, t, L, i, j, L', h => by
    rw [writeRow, writeRow_frame vs _ L i (j+1) L' h, update3_frame _ _ _ _ _ _ h]

theorem writeRow_slice : ∀ (vs : List ℚ) (t : List (List (List ℚ))) (L i j : ℕ),
    L < t.length → i < (t.getD L []).length →
    ((t.getD L []).getD i []).length = j + vs.length →
    (writeRow t L i j vs).getD L [] =
      (t.getD L []).set i (((t.getD L []).getD i []).take j ++ vs)
  | [], t, L, i, j, hL, hi, hj => by
    rw [writeRow, List.append_nil]
    simp only [List.length_nil, Nat.add_zero] at hj
    rw [show j = ((t.getD L []).getD i []).length by omega, List.take_length,
      set_getD_self _ _ _ hi]
  | v :: vs, t, L, i, j, hL, hi, hj => by
    rw [writeRow]
    simp only [List.length_cons] at hj
    have hL' : L < (update3 t L i j v).length := by rw [update3_length]; exact hL
    have hslice : (update3 t L i j v).getD L [] =
        (t.getD L []).set i (((t.getD L []).getD i []).set j v) :=
      update3_slice t L i j v hL
    have hjlt : j < ((t.getD L []).getD i []).length := by omega
    have hi' : i < ((update3 t L i j v).getD L []).length := by
      rw [hslice, List.length_set]; exact hi
    have hrow : ((update3 t L i j v).getD L []).getD i [] =
        ((t.getD L []).getD i []).set j v := by
      rw [hslice, getD_set_self _ _ _ [] hi]
    have hlen : (((update3 t L i j v).getD L []).getD i []).length =
        (j + 1) + vs.length := by
      rw [hrow, List.length_set]; omega
    rw [writeRow_slice vs _ L i (j+1) hL' hi' hlen, hrow, hslice,
      List.set_set, take_set_succ _ j v hjlt, List.append_assoc,
      List.singleton_append]

theorem writeMatrix_length : ∀ (rs : List (List ℚ)) (t : List (List (List ℚ))) (L i : ℕ),
    (writeMatrix t L i rs).length = t.length
  | [], _, _, _ => rfl
  | r :: rs, t, L, i => by
    rw [writeMatrix, writeMatrix_length rs, writeRow_length]

theorem writeMatrix_frame : ∀ (rs : List (List ℚ)) (t : List (List (List ℚ))) (L i L' : ℕ),
    L' ≠ L → (writeMatrix t L i rs).getD L' [] = t.getD L' []
  | [], _, _, _, _, _ => rfl
  | r :: rs, t, L, i, L', h => by
    rw [writeMatrix, writeMatrix_frame rs _ L (i+1) L' h, writeRow_frame _ _ _ _ _ _ h]

theorem writeMatrix_slice : ∀ (rs : List (List ℚ)) (t : List (List (List ℚ)))
    (L i m : ℕ),
    L < t.length →
    (t.getD L []).length = i + rs.length →
    (∀ r ∈ t.getD L [], r.length = m) →
    (∀ r ∈ rs, r.length = m) →
    (writeMatrix t L i rs).getD L [] = (t.getD L []).take i ++ rs
  | [], t, L, i, m, hL, hlen, _, _ => by
    rw [writeMatrix, List.append_nil]
    simp only [List.length_nil, Nat.add_zero] at hlen
    rw [show i = (t.getD L []).length by omega, List.take_length]
  | r :: rs, t, L, i, m, hL, hlen, hall, hnew => by
    rw [writeMatrix]
    simp only [List.length_cons] at hlen
    have hi : i < (t.getD L []).length := by omega
    have hrowmem : (t.getD L []).getD i [] ∈ t.getD L [] := getD_mem _ i [] hi
    have hrowlen : ((t.getD L []).getD i []).length = 0 + r.length := by
      rw [hall _ hrowmem, hnew r (by simp)]
      omega
    have hslice : (writeRow t L i 0 r).getD L [] = (t.getD L []).set i r := by
      rw [writeRow_slice r t L i 0 hL hi hrowlen, List.take_zero, List.nil_append]
    have hL' : L < (writeRow t L i 0 r).length := by
      rw [writeRow_length]; exact hL
    have hlen' : ((writeRow t L i 0 r).getD L []).length = (i + 1) + rs.length := by
      rw [hslice, List.length_set]; omega
    have hall' : ∀ r' ∈ (writeRow t L i 0 r).getD L [], r'.length = m := by
      rw [hslice]
      intro r' hr'
      rcases List.mem_or_eq_of_mem_set hr' with hmem | rfl
      · exact hall r' hmem
      · exact hnew _ (by simp)
    have hnew' : ∀ r' ∈ rs, r'.length = m := fun r' hr' => hnew r' (by simp [hr'])
    rw [writeMatrix_slice rs _ L (i+1) m hL' hlen' hall' hnew', hslice,
      take_set_succ _ i r hi, List.append_assoc, List.singleton_append]

/-- With the default labels, the inner loop writes the whole evaluated row
and touches only `parameters_in_sweep` and `results`. -/
theorem objLoopY_default : ∀ (ys : List ℚ) (s : MSState) (i : ℕ) (xv : ℚ) (j : ℕ),
    s.param_labels = ("x", "y") →
    ∃ d, objLoopY s i xv j ys = some { s with
      parameters_in_sweep := d
      results := writeRow s.results s.level i j (evalRow s.model s.data xv ys) }
  | [], s, i, xv, j, _ => ⟨s.parameters_in_sweep, rfl⟩
  | yv :: ys, s, i, xv, j, h => by
    rw [objLoopY, cellStep_default s i j xv yv h]
    obtain ⟨d, hd⟩ := objLoopY_default ys
      { s with
        parameters_in_sweep :=
          dictInsert "y" yv (dictInsert "x" xv s.parameters_in_sweep)
        results := update3 s.results s.level i j
          (compute_error (s.model [xv, yv]) s.data) } i xv (j + 1) h
    exact ⟨d, by rw [Option.some_bind, hd]; rfl⟩

/-- With the default labels, the outer loop writes the whole evaluated
matrix and touches only `parameters_in_sweep` and `results`. -/
theorem objLoopX_default : ∀ (xs : List ℚ) (s : MSState) (i : ℕ),
    s.param_labels = ("x", "y") →
    ∃ d, objLoopX s i xs = some { s with
      parameters_in_sweep := d
      results := writeMatrix s.results s.level i (evalMatrix s.model s.data xs s.y) }
  | [], s, i, _ => ⟨s.parameters_in_sweep, rfl⟩
  | xv :: xs, s, i, h => by
    rw [objLoopX]
    obtain ⟨d1, hd1⟩ := objLoopY_default s.y s i xv 0 h
    rw [hd1, Option.some_bind]
    obtain ⟨d, hd⟩ := objLoopX_default xs
      { s with
        parameters_in_sweep := d1
        results := writeRow s.results s.level i 0 (evalRow s.model s.data xv s.y) }
      (i + 1) h
    exact ⟨d, by rw [hd]; rfl⟩

/-- With the default labels, `compute_objective` succeeds and replaces
slice `level` of the tensor by the evaluated matrix. -/
theorem compute_objective_default (s : MSState)
    (h : s.param_labels = ("x", "y")) :
    ∃ d, compute_objective s = some { s with
      parameters_in_sweep := d
      results := writeMatrix s.results s.level 0 (evalMatrix s.model s.data s.x s.y) } :=
  objLoopX_default s.x s 0 h

/-- Any successful cell evaluation preserves every state field except the
dict and the tensor, preserves the tensor's length and changes no slice
other than slice `level`. -/
theorem cellStep_some (s s' : MSState) (i j : ℕ) (xv yv : ℚ)
    (h : cellStep s i j xv yv = some s') :
    s'.level = s.level ∧ s'.n_levels = s.n_levels ∧ s'.npdir = s.npdir ∧
    s'.x = s.x ∧ s'.y = s.y ∧ s'.model = s.model ∧ s'.data = s.data ∧
    s'.param_labels = s.param_labels ∧ s'.ppdir = s.ppdir ∧
    s'.opt_point = s.opt_point ∧ s'.param_bounds = s.param_bounds ∧
    s'.results.length = s.results.length ∧
    (∀ L, L ≠ s.level → s'.results.getD L [] = s.results.getD L []) := by
  simp only [cellStep] at h
  split at h
  case h_1 vx vy hvx hvy =>
    rw [Option.some.injEq] at h
    subst h
    refine ⟨rfl, rfl, rfl, rfl, rfl, rfl, rfl, rfl, rfl, rfl, rfl, ?_, ?_⟩
    · exact update3_length s.results s.level i j _
    · intro L hL
      exact update3_frame s.results s.level i j _ L hL
  case h_2 => exact absurd h (by simp)

theorem objLoopY_frame : ∀ (ys : List ℚ) (s s' : MSState) (i : ℕ) (xv : ℚ) (j : ℕ),
    objLoopY s i xv j ys = some s' →
    s'.level = s.level ∧ s'.n_levels = s.n_levels ∧ s'.npdir = s.npdir ∧
    s'.x = s.x ∧ s'.y = s.y ∧ s'.model = s.model ∧ s'.data = s.data ∧
    s'.param_labels = s.param_labels ∧ s'.ppdir = s.ppdir ∧
    s'.opt_point = s.opt_point ∧ s'.param_bounds = s.param_bounds ∧
    s'.results.length = s.results.length ∧
    (∀ L, L ≠ s.level → s'.results.getD L [] = s.results.getD L [])
  | [], s, s', i, xv, j, h => by
    rw [objLoopY, Option.some.injEq] at h
    subst h
    exact ⟨rfl, rfl, rfl, rfl, rfl, rfl, rfl, rfl, rfl, rfl, rfl, rfl, fun _ _ => rfl⟩
  | yv :: ys, s, s', i, xv, j, h => by
    rw [objLoopY] at h
    rcases hc : cellStep s i j xv yv with _ | s1
    · rw [hc, Option.none_bind] at h
      exact absurd h (by simp)
    · rw [hc, Option.some_bind] at h
      obtain ⟨c1, c2, c3, c4, c5, c6, c7, c8, c9, c10, c11, c12, c13⟩ :=
        cellStep_some s s1 i j xv yv hc
      obtain ⟨d1, d2, d3, d4, d5, d6, d7, d8, d9, d10, d11, d12, d13⟩ :=
        objLoopY_frame ys s1 s' i xv (j + 1) h
      exact ⟨by rw [d1, c1], by rw [d2, c2], by rw [d3, c3], by rw [d4, c4],
        by rw [d5, c5], by rw [d6, c6], by rw [d7, c7], by rw [d8, c8],
        by rw [d9, c9], by rw [d10, c10], by rw [d11, c11], by rw [d12, c12],
        fun L hL => by rw [d13 L (by rw [c1]; exact hL), c13 L hL]⟩

theorem objLoopX_frame : ∀ (xs : List ℚ) (s s' : MSState) (i : ℕ),
    objLoopX s i xs = some s' →
    s'.level = s.level ∧ s'.n_levels = s.n_levels ∧ s'.npdir = s.npdir ∧
    s'.x = s.x ∧ s'.y = s.y ∧ s'.model = s.model ∧ s'.data = s.data ∧
    s'.param_labels = s.param_labels ∧ s'.ppdir = s.ppdir ∧
    s'.opt_point = s.opt_point ∧ s'.param_bounds = s.param_bounds ∧
    s'.results.length = s.results.length ∧
    (∀ L, L ≠ s.level → s'.results.getD L [] = s.results.getD L [])
  | [], s, s', i, h => by
    rw [objLoopX, Option.some.injEq] at h
    subst h
    exact ⟨rfl, rfl, rfl, rfl, rfl, rfl, rfl, rfl, rfl, rfl, rfl, rfl, fun _ _ => rfl⟩
  | xv :: xs, s, s', i, h => by
    rw [objLoopX] at h
    rcases hc : objLoopY s i xv 0 s.y with _ | s1
    · rw [hc, Option.none_bind] at h
      exact absurd h (by simp)
    · rw [hc, Option.some_bind] at h
      obtain ⟨c1, c2, c3, c4, c5, c6, c7, c8, c9, c10, c11, c12, c13⟩ :=
        objLoopY_frame s.y s s1 i xv 0 hc
      obtain ⟨d1, d2, d3, d4, d5, d6, d7, d8, d9, d10, d11, d12, d13⟩ :=
        objLoopX_frame xs s1 s' (i + 1) h
      exact ⟨by rw [d1, c1], by rw [d2, c2], by rw [d3, c3], by rw [d4, c4],
        by rw [d5, c5], by rw [d6, c6], by rw [d7, c7], by rw [d8, c8],
        by rw [d9, c9], by rw [d10, c10], by rw [d11, c11], by rw [d12, c12],
        fun L hL => by rw [d13 L (by rw [c1]; exact hL), c13 L hL]⟩

/-- Frame property of `compute_objective` for arbitrary labels: it never
changes the tensor's length nor any slice other than slice `level`. -/
theorem compute_objective_frame (s s' : MSState)
    (h : compute_objective s = some s') :
    s'.results.length = s.results.length ∧
    (∀ L, L ≠ s.level → s'.results.getD L [] = s.results.getD L []) ∧
    s'.level = s.level := by
  obtain ⟨c1, _, _, _, _, _, _, _, _, _, _, c12, c13⟩ :=
    objLoopX_frame s.x s s' 0 h
  exact ⟨c12, c13, c1⟩

theorem computeAxis_length (c f : ℚ) (b : Option ℚ × Option ℚ) (n : ℕ) :
    (computeAxis c f b n).length = n :=
  linspace_length _ _ n

/-- With the default labels and a well-shaped slice, `compute_objective`
succeeds, fills slice `level` with the evaluated matrix, and leaves
everything else (other slices included) unchanged. -/
theorem compute_objective_char (s : MSState)
    (h : s.param_labels = ("x", "y"))
    (hL : s.level < s.results.length)
    (hrows : (s.results.getD s.level []).length = s.x.length)
    (hcols : ∀ r ∈ s.results.getD s.level [], r.length = s.y.length) :
    ∃ s', compute_objective s = some s' ∧
      s'.results.getD s.level [] = evalMatrix s.model s.data s.x s.y ∧
      s'.results.length = s.results.length ∧
      (∀ L, L ≠ s.level → s'.results.getD L [] = s.results.getD L []) ∧
      s'.level = s.level ∧ s'.x = s.x ∧ s'.y = s.y ∧ s'.npdir = s.npdir ∧
      s'.n_levels = s.n_levels ∧ s'.model = s.model ∧ s'.data = s.data ∧
      s'.param_labels = s.param_labels ∧ s'.ppdir = s.ppdir ∧
      s'.opt_point = s.opt_point ∧ s'.param_bounds = s.param_bounds := by
  obtain ⟨d, hd⟩ := compute_objective_default s h
  have hlen : (s.results.getD s.level []).length =
      0 + (evalMatrix s.model s.data s.x s.y).length := by
    rw [evalMatrix, List.length_map]
    omega
  have hnew : ∀ r ∈ evalMatrix s.model s.data s.x s.y, r.length = s.y.length := by
    intro r hr
    rw [evalMatrix] at hr
    obtain ⟨xv, _, rfl⟩ := List.mem_map.mp hr
    rw [evalRow, List.length_map]
  have hslice : (writeMatrix s.results s.level 0
      (evalMatrix s.model s.data s.x s.y)).getD s.level [] =
      evalMatrix s.model s.data s.x s.y := by
    rw [writeMatrix_slice _ _ _ _ s.y.length hL hlen hcols hnew,
      List.take_zero, List.nil_append]
  refine ⟨_, hd, hslice, ?_, ?_, rfl, rfl, rfl, rfl, rfl, rfl, rfl, rfl, rfl,
    rfl, rfl⟩
  · exact writeMatrix_length _ _ _ _
  · intro L hL'
    exact writeMatrix_frame _ _ _ _ _ hL'

/-- With the default labels and a well-shaped slice at the current level,
`run_level` succeeds, fills slice `level` with the evaluation of the two
freshly computed grids, and leaves the other slices unchanged. -/
theorem run_level_char (s : MSState)
    (h : s.param_labels = ("x", "y"))
    (hL : s.level < s.results.length)
    (hrows : (s.results.getD s.level []).length = s.npdir)
    (hcols : ∀ r ∈ s.results.getD s.level [], r.length = s.npdir) :
    ∃ s2, run_level s = some s2 ∧
      s2.results.getD s.level [] = evalMatrix s.model s.data
        (computeAxis s.opt_point.1 (shrink_factor s.ppdir s.level)
          s.param_bounds.1 s.npdir)
        (computeAxis s.opt_point.2 (shrink_factor s.ppdir s.level)
          s.param_bounds.2 s.npdir) ∧
      s2.results.length = s.results.length ∧
      (∀ L, L ≠ s.level → s2.results.getD L [] = s.results.getD L []) ∧
      s2.level = s.level ∧ s2.npdir = s.npdir ∧ s2.n_levels = s.n_levels ∧
      s2.model = s.model ∧ s2.data = s.data ∧
      s2.param_labels = s.param_labels ∧ s2.ppdir = s.ppdir := by
  have hrows1 : ((set_bounds s).results.getD (set_bounds s).level []).length =
      (set_bounds s).x.length := by
    show (s.results.getD s.level []).length = (computeAxis _ _ _ s.npdir).length
    rw [computeAxis_length]
    exact hrows
  have hcols1 : ∀ r ∈ (set_bounds s).results.getD (set_bounds s).level [],
      r.length = (set_bounds s).y.length := by
    intro r hr
    show r.length = (computeAxis _ _ _ s.npdir).length
    rw [computeAxis_length]
    exact hcols r hr
  obtain ⟨s', hco, hslice, hlen, hframe, hlevel, hx, hy, hnp, hnl, hmodel,
    hdata, hlabels, hpp, hopt, hbounds⟩ :=
    compute_objective_char (set_bounds s) h hL hrows1 hcols1
  refine ⟨{ s' with opt_point := get_new_params s' }, ?_, hslice, hlen, hframe,
    hlevel, hnp, hnl, hmodel, hdata, hlabels, hpp⟩
  rw [run_level, hco]
  rfl

/-- Unfolding of `run_level` in terms of its two phases: if the objective evaluation of
the regenerated grids yields `s2`, the level ends in `s2` with `opt_point`
moved to `get_new_params s2`. -/
theorem run_level_eq (s s2 : MSState)
    (h : compute_objective (set_bounds s) = some s2) :
    run_level s = some { s2 with opt_point := get_new_params s2 } := by
  rw [run_level, h]
  rfl

/-- The level loop: starting `k` levels before the end with a well-shaped
tensor and default labels, the loop succeeds; the slices already processed
are untouched and every remaining slice ends up holding a fully evaluated
matrix of shape `npdir × npdir`. -/
theorem runLoop_complete : ∀ (k : ℕ) (s s' : MSState),
    s.param_labels = ("x", "y") →
    s.n_levels = s.level + k →
    s.results.length = s.n_levels →
    (∀ L, s.level ≤ L → L < s.n_levels →
      (s.results.getD L []).length = s.npdir ∧
      ∀ r ∈ s.results.getD L [], r.length = s.npdir) →
    runLoop k s = some s' →
    (∀ L, L < s.level → s'.results.getD L [] = s.results.getD L []) ∧
    (∀ L, s.level ≤ L → L < s.n_levels →
      ∃ xs ys, xs.length = s.npdir ∧ ys.length = s.npdir ∧
        s'.results.getD L [] = evalMatrix s.model s.data xs ys)
  | 0, s, s', _, hk, _, _, h => by
    rw [runLoop, Option.some.injEq] at h
    subst h
    exact ⟨fun L _ => rfl, fun L hL1 hL2 => absurd hL2 (by omega)⟩
  | k + 1, s, s', hlab, hk, hresl, hshape, h => by
    rw [runLoop] at h
    obtain ⟨s2, hrl, hslice, hlen, hframe, hlevel, hnp, hnl, hmodel, hdata,
      hlabels, hpp⟩ := run_level_char s hlab (by omega)
      (hshape s.level (le_refl _) (by omega)).1
      (hshape s.level (le_refl _) (by omega)).2
    rw [hrl, Option.some_bind] at h
    have hlab3 : ({ s2 with level := s2.level + 1 } : MSState).param_labels =
        ("x", "y") := by
      show s2.param_labels = _
      rw [hlabels, hlab]
    have hk3 : ({ s2 with level := s2.level + 1 } : MSState).n_levels =
        ({ s2 with level := s2.level + 1 } : MSState).level + k := by
      show s2.n_levels = s2.level + 1 + k
      rw [hnl, hlevel]
      omega
    have hresl3 : ({ s2 with level := s2.level + 1 } : MSState).results.length =
        ({ s2 with level := s2.level + 1 } : MSState).n_levels := by
      show s2.results.length = s2.n_levels
      rw [hlen, hnl, hresl]
    have hshape3 : ∀ L, ({ s2 with level := s2.level + 1 } : MSState).level ≤ L →
        L < ({ s2 with level := s2.level + 1 } : MSState).n_levels →
        (({ s2 with level := s2.level + 1 } : MSState).results.getD L []).length =
          ({ s2 with level := s2.level + 1 } : MSState).npdir ∧
        ∀ r ∈ ({ s2 with level := s2.level + 1 } : MSState).results.getD L [],
          r.length = ({ s2 with level := s2.level + 1 } : MSState).npdir := by
      intro L hL1 hL2
      show (s2.results.getD L []).length = s2.npdir ∧
        ∀ r ∈ s2.results.getD L [], r.length = s2.npdir
      have hLne : L ≠ s.level := by
        have : s2.level + 1 ≤ L := hL1
        rw [hlevel] at this
        omega
      rw [hframe L hLne, hnp]
      exact hshape L (by have : s2.level + 1 ≤ L := hL1; rw [hlevel] at this; omega)
        (by have : L < s2.n_levels := hL2; rw [hnl] at this; exact this)
    obtain ⟨ihframe, ihfull⟩ := runLoop_complete k _ s' hlab3 hk3 hresl3 hshape3 h
    constructor
    · intro L hL
      have h1 : s'.results.getD L [] =
          ({ s2 with level := s2.level + 1 } : MSState).results.getD L [] :=
        ihframe L (by show L < s2.level + 1; omega)
      rw [h1]
      show s2.results.getD L [] = _
      rw [hframe L (by omega)]
    · intro L hL1 hL2
      rcases Nat.eq_or_lt_of_le hL1 with hEq | hLt
      · subst hEq
        have h1 : s'.results.getD s.level [] =
            ({ s2 with level := s2.level + 1 } : MSState).results.getD s.level [] :=
          ihframe s.level (by show s.level < s2.level + 1; omega)
        refine ⟨computeAxis s.opt_point.1 (shrink_factor s.ppdir s.level)
            s.param_bounds.1 s.npdir,
          computeAxis s.opt_point.2 (shrink_factor s.ppdir s.level)
            s.param_bounds.2 s.npdir,
          computeAxis_length _ _ _ _, computeAxis_length _ _ _ _, ?_⟩
        rw [h1]
        exact hslice
      · obtain ⟨xs, ys, hxs, hys, hev⟩ := ihfull L
          (by show s2.level + 1 ≤ L; omega)
          (by show L < s2.n_levels; rw [hnl]; exact hL2)
        refine ⟨xs, ys, ?_, ?_, ?_⟩
        · rw [hxs]
          show s2.npdir = s.npdir
          exact hnp
        · rw [hys]
          show s2.npdir = s.npdir
          exact hnp
        · rw [hev]
          show evalMatrix s2.model s2.data xs ys = _
          rw [hmodel, hdata]

end MultiSweep

/-- The state of concrete scenario A: identity black box, target `[4, 6]`,
one level, three points per dimension, shrink numerator `1`, initial best
point `(2, 2)`. -/
def scenarioA : MSState :=
  MultiSweep.set_fit_value (MultiSweep.init (fun p => p) [4, 6] 1 3 1) 2 2

/-- The state `compute_objective` produces for scenario A: the 3×3 error
matrix `(x−4)² + (y−6)²` over the grids `[0, 2, 4] × [0, 2, 4]`, and the
dict left over from the last cell `(4, 4)`. -/
def scenarioA2 : MSState where
  model := fun p => p
  data := [4, 6]
  n_levels := 1
  npdir := 3
  ppdir := 1
  results := [[[52, 32, 20], [40, 20, 8], [36, 16, 4]]]
  x := [0, 2, 4]
  y := [0, 2, 4]
  parameters_in_sweep := [("y", 4), ("x", 4)]
  level := 0
  opt_point := (2, 2)
  param_labels := ("x", "y")
  param_bounds := ((none, none), (none, none))

set_option maxHeartbeats 2000000 in
/-- Evaluation of the objective phase of scenario A. -/
theorem scenarioA_objective_eval :
    MultiSweep.compute_objective (MultiSweep.set_bounds scenarioA) = some scenarioA2 := by
  norm_num [scenarioA, scenarioA2, MultiSweep.compute_objective,
    MultiSweep.objLoopX, MultiSweep.objLoopY, MultiSweep.cellStep,
    MultiSweep.dictInsert, MultiSweep.update3, MultiSweep.set_bounds,
    MultiSweep.computeAxis, MultiSweep.lowEndpoint, MultiSweep.highEndpoint,
    MultiSweep.anyB, MultiSweep.truthy, MultiSweep.shrink_factor,
    MultiSweep.set_fit_value, MultiSweep.init, linspace, List.range_succ,
    compute_error, List.lookup,
    beq_xx, beq_xy, beq_yx, beq_yy, bne_xy, bne_yx,
    List.replicate, List.set_cons_zero, List.set_cons_succ,
    List.getElem?_cons_zero, List.getElem?_cons_succ, List.getD]

/-- Scenario A reconfigured with the non-default labels `"a"`, `"b"` via
`select_params`. -/
def scenarioAB : MSState :=
  MultiSweep.select_params scenarioA "a" "b"

/-- The state of concrete scenario C: initial best point `(0, 2)`. -/
def scenarioC : MSState :=
  MultiSweep.set_fit_value (MultiSweep.init (fun p => p) [] 1 3 1) 0 2

/-- A sweep whose first parameter has the lower bound `0` set (and no upper
bound), current best value `−1` and shrink numerator `1/2`. -/
def scenarioBound0 : MSState :=
  MultiSweep.set_param_bounds
    (MultiSweep.set_fit_value (MultiSweep.init (fun p => p) [] 1 3 (1/2)) (-1) 2)
    (some (some 0, none)) none

/-- A degenerate window produces `n` identical values. -/
theorem computeAxis_zero_center (f : ℚ) (n : ℕ) :
    MultiSweep.computeAxis 0 f (none, none) n = List.replicate n 0 := by
  have hlo : MultiSweep.lowEndpoint 0 f (none, none) = 0 := by
    simp [MultiSweep.lowEndpoint, MultiSweep.anyB, MultiSweep.truthy]
  have hhi : MultiSweep.highEndpoint 0 f (none, none) = 0 := by
    simp [MultiSweep.highEndpoint, MultiSweep.anyB, MultiSweep.truthy]
  rw [MultiSweep.computeAxis, hlo, hhi, linspace_zero]

/-- C1: end-to-end concrete sweep (spec scenario A): with the identity
black box, target `[4, 6]`, sum-of-squared-differences error, one level,
three points per dimension, shrink numerator `1` and initial best point
`(2, 2)`: the level-0 shrink factor is `1`, both grids are `[0, 2, 4]`,
the 3×3 error matrix attains its minimum `4` at flat index 8, i.e. at the
cell of `(4, 4)`, and `run_sweep` returns `(4, 4)`. -/
theorem claim_scenarioA_end_to_end :
    MultiSweep.shrink_factor 1 0 = 1 ∧
    (MultiSweep.set_bounds scenarioA).x = [0, 2, 4] ∧
    (MultiSweep.set_bounds scenarioA).y = [0, 2, 4] ∧
    MultiSweep.compute_objective (MultiSweep.set_bounds scenarioA) = some scenarioA2 ∧
    scenarioA2.results.getD 0 [] = [[52, 32, 20], [40, 20, 8], [36, 16, 4]] ∧
    argmin [52, 32, 20, 40, 20, 8, 36, 16, 4] = 8 ∧
    [(52 : ℚ), 32, 20, 40, 20, 8, 36, 16, 4].getD 8 0 = 4 ∧
    MultiSweep.get_new_params scenarioA2 = (4, 4) ∧
    MultiSweep.run_sweep scenarioA = some (4, 4) := by
  refine ⟨?_, ?_, ?_, ?_, ?_, ?_, ?_, ?_, ?_⟩
  · norm_num [MultiSweep.shrink_factor]
  · norm_num [scenarioA, MultiSweep.set_bounds, MultiSweep.computeAxis,
      MultiSweep.lowEndpoint, MultiSweep.highEndpoint, MultiSweep.anyB,
      MultiSweep.truthy, MultiSweep.shrink_factor, MultiSweep.set_fit_value,
      MultiSweep.init, linspace, List.range_succ]
  · norm_num [scenarioA, MultiSweep.set_bounds, MultiSweep.computeAxis,
      MultiSweep.lowEndpoint, MultiSweep.highEndpoint, MultiSweep.anyB,
      MultiSweep.truthy, MultiSweep.shrink_factor, MultiSweep.set_fit_value,
      MultiSweep.init, linspace, List.range_succ]
  · exact scenarioA_objective_eval
  · norm_num [scenarioA2]
  · norm_num [argmin, List.getD]
  · norm_num [List.getD]
  · norm_num [scenarioA2, MultiSweep.get_new_params, argmin, List.getD]
  · norm_num [scenarioA, MultiSweep.run_sweep, MultiSweep.runLoop,
      MultiSweep.run_level, MultiSweep.compute_objective, MultiSweep.objLoopX,
      MultiSweep.objLoopY, MultiSweep.cellStep, MultiSweep.dictInsert,
      MultiSweep.update3, MultiSweep.get_new_params, MultiSweep.set_bounds,
      MultiSweep.computeAxis, MultiSweep.lowEndpoint, MultiSweep.highEndpoint,
      MultiSweep.anyB, MultiSweep.truthy, MultiSweep.shrink_factor,
      MultiSweep.set_fit_value, MultiSweep.init, linspace, List.range_succ,
      compute_error, argmin, List.lookup,
      beq_xx, beq_xy, beq_yx, beq_yy, bne_xy, bne_yx,
      List.replicate, List.set_cons_zero, List.set_cons_succ,
      List.getElem?_cons_zero, List.getElem?_cons_succ, List.getD]

/-- C2 counterexample: for center `−1`, factor `1` and no bounds, the code
computes `low = 0`, `high = −2` and the grid `[0, −1, −2]`, which is not
in ascending order — the claim's "ascending" fails for negative centers. -/
theorem claim_grid_ascending_counterexample :
    MultiSweep.computeAxis (-1) 1 (none, none) 3 = [0, -1, -2] ∧
    ¬ List.Chain' (· ≤ ·) (MultiSweep.computeAxis (-1) 1 (none, none) 3) := by
  have h : MultiSweep.computeAxis (-1) 1 (none, none) 3 = [0, -1, -2] := by
    norm_num [MultiSweep.computeAxis, MultiSweep.lowEndpoint,
      MultiSweep.highEndpoint, MultiSweep.anyB, MultiSweep.truthy, linspace,
      List.range_succ]
  refine ⟨h, ?_⟩
  rw [h]
  intro hc
  rw [List.chain'_cons] at hc
  norm_num at hc

/-- C2 (amended): for every center, every factor and any bounds, the grid
always holds exactly `points_per_dimension` values, running inclusively
from the (clamped) low endpoint to the (clamped) high endpoint with the
constant step `(high − low)/(n − 1)`; it is ascending when `low ≤ high`
(in particular for nonnegative centers without binding bounds), and
descending otherwise. -/
theorem claim_grid_cardinality_spacing_order (c f : ℚ)
    (b : Option ℚ × Option ℚ) (n : ℕ) (hf : 0 < f) :
    (MultiSweep.computeAxis c f b n).length = n ∧
    (1 ≤ n → (MultiSweep.computeAxis c f b n).getD 0 0 =
      MultiSweep.lowEndpoint c f b) ∧
    (2 ≤ n → (MultiSweep.computeAxis c f b n).getD (n - 1) 0 =
      MultiSweep.highEndpoint c f b) ∧
    (∀ k, 2 ≤ n → k + 1 < n →
      (MultiSweep.computeAxis c f b n).getD (k + 1) 0 -
        (MultiSweep.computeAxis c f b n).getD k 0 =
        (MultiSweep.highEndpoint c f b - MultiSweep.lowEndpoint c f b) /
          ((n : ℚ) - 1)) ∧
    (MultiSweep.lowEndpoint c f b ≤ MultiSweep.highEndpoint c f b →
      List.Chain' (· ≤ ·) (MultiSweep.computeAxis c f b n)) := by
  refine ⟨linspace_length _ _ n, ?_, ?_, ?_, ?_⟩
  · intro h1
    exact linspace_getD_head _ _ n h1
  · intro h2
    exact linspace_getD_last _ _ n h2
  · intro k h2 hk
    exact linspace_step _ _ n k h2 hk
  · intro hle
    exact linspace_chain _ _ n hle

/-- Witness for the amended C2 at `c = 1`, `f = 1`, no bounds, `n = 3`. -/
theorem claim_grid_cardinality_spacing_order_witness :
    (MultiSweep.computeAxis 1 1 (none, none) 3).length = 3 ∧
    (MultiSweep.computeAxis 1 1 (none, none) 3).getD 0 0 =
      MultiSweep.lowEndpoint 1 1 (none, none) ∧
    List.Chain' (· ≤ ·) (MultiSweep.computeAxis 1 1 (none, none) 3) :=
  ⟨(claim_grid_cardinality_spacing_order 1 1 (none, none) 3 one_pos).1,
   (claim_grid_cardinality_spacing_order 1 1 (none, none) 3 one_pos).2.1
     (by norm_num),
   (claim_grid_cardinality_spacing_order 1 1 (none, none) 3 one_pos).2.2.2.2
     (by norm_num [MultiSweep.lowEndpoint, MultiSweep.highEndpoint,
       MultiSweep.anyB, MultiSweep.truthy])⟩

/-- C3 counterexample: the first parameter's lower bound is set to `0`,
the computed window `[−1/2, −3/2]` lies entirely below it, yet `set_bounds`
performs no clamping — Python's `any([0.0, None])` is `False`, so the
guard skips the clamping block and every grid value violates the bound. -/
theorem claim_bound_clamping_counterexample :
    (MultiSweep.set_bounds scenarioBound0).x = [-(1 : ℚ)/2, -1, -3/2] ∧
    ¬ ∀ v ∈ (MultiSweep.set_bounds scenarioBound0).x, (0 : ℚ) ≤ v := by
  have h : (MultiSweep.set_bounds scenarioBound0).x = [-(1 : ℚ)/2, -1, -3/2] := by
    norm_num [scenarioBound0, MultiSweep.set_bounds, MultiSweep.computeAxis,
      MultiSweep.lowEndpoint, MultiSweep.highEndpoint, MultiSweep.anyB,
      MultiSweep.truthy, MultiSweep.shrink_factor, MultiSweep.set_fit_value,
      MultiSweep.set_param_bounds, MultiSweep.init, linspace, List.range_succ]
  refine ⟨h, ?_⟩
  rw [h]
  intro hall
  have := hall (-(1 : ℚ)/2) (by simp)
  norm_num at this

/-- C3 (amended): clamping only happens when at least one entry of the
parameter's bound pair is truthy (set and nonzero).  In that case a set
lower bound raises `low` when `low` falls below it (`low` becomes
`max (c − f·c) lower`) and a set upper bound lowers `high` symmetrically;
the generated grid values are confined between the two clamped endpoints —
but not necessarily within `[lower, upper]`. -/
theorem claim_bound_clamping_amended (c f : ℚ) (lb ub : Option ℚ) (n : ℕ)
    (hB : MultiSweep.anyB (lb, ub) = true) :
    (∀ lv, lb = some lv →
      MultiSweep.lowEndpoint c f (lb, ub) = max (c - f * c) lv) ∧
    (∀ uv, ub = some uv →
      MultiSweep.highEndpoint c f (lb, ub) = min (c + f * c) uv) ∧
    (∀ v ∈ MultiSweep.computeAxis c f (lb, ub) n,
      min (MultiSweep.lowEndpoint c f (lb, ub))
          (MultiSweep.highEndpoint c f (lb, ub)) ≤ v ∧
      v ≤ max (MultiSweep.lowEndpoint c f (lb, ub))
          (MultiSweep.highEndpoint c f (lb, ub))) := by
  refine ⟨?_, ?_, ?_⟩
  · intro lv hlv
    subst hlv
    rw [MultiSweep.lowEndpoint]
    simp only [hB, if_true]
    split_ifs with hlt
    · rw [max_eq_right (le_of_lt hlt)]
    · rw [max_eq_left (not_lt.mp hlt)]
  · intro uv huv
    subst huv
    rw [MultiSweep.highEndpoint]
    simp only [hB, if_true]
    split_ifs with hlt
    · rw [min_eq_right (le_of_lt hlt)]
    · rw [min_eq_left (not_lt.mp hlt)]
  · intro v hv
    exact linspace_mem_bounds _ _ n v hv

/-- Witness for the amended C3 at `c = 2`, `f = 1`, lower bound `1`. -/
theorem claim_bound_clamping_amended_witness :
    MultiSweep.lowEndpoint 2 1 (some 1, none) = max (2 - 1 * 2) 1 :=
  (claim_bound_clamping_amended 2 1 (some 1) none 3
    (by norm_num [MultiSweep.anyB, MultiSweep.truthy])).1 1 rfl

/-- C4: optimum selection and the cross-level invariant.  `argmin` returns
an in-range index attaining the minimum with ties resolved to the first
occurrence; `get_new_params` inverts the flat index via
`i = ⌊I / npdir⌋`, `j = I − npdir·i` over the row-major flattening of
slice `level`; a completed level replaces `opt_point` by exactly
`get_new_params` of the evaluated state (so the best point at the start of
level L+1 is the minimal-error grid point found in level L); and
`set_fit_value` seeds the level-0 best point with the caller's values. -/
theorem claim_optimum_selection_invariant :
    (∀ l : List ℚ, l ≠ [] →
      argmin l < l.length ∧
      (∀ k, k < l.length → l.getD (argmin l) 0 ≤ l.getD k 0) ∧
      (∀ k, k < argmin l → l.getD (argmin l) 0 < l.getD k 0)) ∧
    (∀ s : MSState, MultiSweep.get_new_params s =
      (s.x.getD (argmin ((s.results.getD s.level []).flatten) / s.npdir) 0,
       s.y.getD (argmin ((s.results.getD s.level []).flatten) -
         s.npdir * (argmin ((s.results.getD s.level []).flatten) / s.npdir)) 0)) ∧
    (∀ s s2 : MSState,
      MultiSweep.compute_objective (MultiSweep.set_bounds s) = some s2 →
      MultiSweep.run_level s =
        some { s2 with opt_point := MultiSweep.get_new_params s2 }) ∧
    (∀ (s : MSState) (a b : ℚ),
      (MultiSweep.set_fit_value s a b).opt_point = (a, b)) :=
  ⟨argmin_spec, fun _ => rfl, MultiSweep.run_level_eq, fun _ _ _ => rfl⟩

/-- Witness for C4: the argmin facts at `[3, 1, 2]` and the level
transition of scenario A. -/
theorem claim_optimum_selection_invariant_witness :
    argmin [(3 : ℚ), 1, 2] < ([(3 : ℚ), 1, 2]).length ∧
    MultiSweep.run_level scenarioA =
      some { scenarioA2 with opt_point := MultiSweep.get_new_params scenarioA2 } :=
  ⟨(claim_optimum_selection_invariant.1 [3, 1, 2] (by simp)).1,
   claim_optimum_selection_invariant.2.2.1 scenarioA scenarioA2
     scenarioA_objective_eval⟩

/-- C5: the shrink schedule.  The factor of level `L` is
`ppdir / (2·L + 1)` (level 0 uses the full numerator), fixed independently
of observed improvement, and for a positive numerator it is strictly
decreasing in the level index. -/
theorem claim_shrink_schedule (p : ℚ) (L : ℕ) (hp : 0 < p) :
    MultiSweep.shrink_factor p L = p / (2 * (L : ℚ) + 1) ∧
    MultiSweep.shrink_factor p 0 = p ∧
    MultiSweep.shrink_factor p (L + 1) < MultiSweep.shrink_factor p L := by
  refine ⟨?_, ?_, ?_⟩
  · rw [MultiSweep.shrink_factor]
    ring_nf
  · rw [MultiSweep.shrink_factor]
    norm_num
  · rw [MultiSweep.shrink_factor, MultiSweep.shrink_factor]
    have h1 : (0 : ℚ) < (L : ℚ) * 2 + 1 := by positivity
    have h2 : (L : ℚ) * 2 + 1 < ((L + 1 : ℕ) : ℚ) * 2 + 1 := by
      push_cast
      linarith
    exact div_lt_div_of_pos_left hp h1 h2

/-- Witness for C5 at `p = 1`, `L = 0`. -/
theorem claim_shrink_schedule_witness :
    MultiSweep.shrink_factor 1 0 = 1 ∧
    MultiSweep.shrink_factor 1 1 < MultiSweep.shrink_factor 1 0 :=
  ⟨(claim_shrink_schedule 1 0 one_pos).2.1,
   (claim_shrink_schedule 1 0 one_pos).2.2⟩

/-- C6 counterexample: with the labels `"a"`, `"b"` configured through
`select_params`, the otherwise identical scenario A aborts with a
`KeyError` (modelled `none`) instead of returning `(4, 4)`: line 252 reads
the dict back with the hard-coded keys `"x"` and `"y"`. -/
theorem claim_custom_labels_counterexample :
    MultiSweep.run_sweep scenarioAB = none := by
  norm_num [scenarioA, scenarioAB, MultiSweep.run_sweep, MultiSweep.runLoop,
    MultiSweep.run_level, MultiSweep.compute_objective, MultiSweep.objLoopX,
    MultiSweep.objLoopY, MultiSweep.cellStep, MultiSweep.dictInsert,
    MultiSweep.select_params, MultiSweep.set_bounds, MultiSweep.computeAxis,
    MultiSweep.lowEndpoint, MultiSweep.highEndpoint, MultiSweep.anyB,
    MultiSweep.truthy, MultiSweep.shrink_factor, MultiSweep.set_fit_value,
    MultiSweep.init, linspace, List.range_succ, List.lookup,
    beq_xa, beq_xb, beq_ya, beq_yb, bne_ab, bne_ba,
    List.replicate]

/-- C6 (amended): each cell stores the two coordinates in the parameter
dict under the configured labels but invokes the black box on the
two-element list read back with the hard-coded keys `"x"`/`"y"`.  With the
default labels this list is `[x_i, y_j]` and the error function is applied
to the black-box output and the target; when neither configured label is
`"x"` (and no stale `"x"` binding exists), the lookup raises `KeyError`
before the black box is invoked. -/
theorem claim_cell_evaluation_amended :
    (∀ (s : MSState) (i j : ℕ) (xv yv : ℚ), s.param_labels = ("x", "y") →
      MultiSweep.cellStep s i j xv yv = some { s with
        parameters_in_sweep := MultiSweep.dictInsert "y" yv
          (MultiSweep.dictInsert "x" xv s.parameters_in_sweep)
        results := MultiSweep.update3 s.results s.level i j
          (compute_error (s.model [xv, yv]) s.data) }) ∧
    (∀ (s : MSState) (i j : ℕ) (xv yv : ℚ),
      s.param_labels.1 ≠ "x" → s.param_labels.2 ≠ "x" →
      s.parameters_in_sweep.lookup "x" = none →
      MultiSweep.cellStep s i j xv yv = none) :=
  ⟨fun s i j xv yv h => MultiSweep.cellStep_default s i j xv yv h,
   fun s i j xv yv h1 h2 h3 => MultiSweep.cellStep_keyerror s i j xv yv h1 h2 h3⟩

/-- Witness for the amended C6: a successful default-label cell and a
failing custom-label cell. -/
theorem claim_cell_evaluation_amended_witness :
    (MultiSweep.cellStep (MultiSweep.set_bounds scenarioA) 0 0 5 7).isSome = true ∧
    MultiSweep.cellStep scenarioAB 0 0 5 7 = none :=
  ⟨by rw [claim_cell_evaluation_amended.1 (MultiSweep.set_bounds scenarioA)
      0 0 5 7 rfl]; rfl,
   claim_cell_evaluation_amended.2 scenarioAB 0 0 5 7 (by decide) (by decide) rfl⟩

/-- C7: the degenerate window.  When a parameter's current best value is
exactly `0` (and its bounds are unset), both window endpoints evaluate to
`0` and the generated grid is `npdir` identical zeros; `set_bounds` is
total — no error is raised and no safeguard is applied. -/
theorem claim_degenerate_window (s : MSState)
    (hc : s.opt_point.1 = 0)
    (hb : s.param_bounds.1 = (none, none))
    (hn : 2 ≤ s.npdir)
    (hf : 0 < MultiSweep.shrink_factor s.ppdir s.level) :
    (MultiSweep.set_bounds s).x = List.replicate s.npdir 0 := by
  show MultiSweep.computeAxis s.opt_point.1
    (MultiSweep.shrink_factor s.ppdir s.level) s.param_bounds.1 s.npdir = _
  rw [hc, hb, computeAxis_zero_center]

/-- Witness for C7: scenario C's first grid is `[0, 0, 0]`. -/
theorem claim_degenerate_window_witness :
    (MultiSweep.set_bounds scenarioC).x = List.replicate 3 0 :=
  claim_degenerate_window scenarioC rfl rfl (by decide)
    (by norm_num [MultiSweep.shrink_factor, scenarioC, MultiSweep.set_fit_value,
      MultiSweep.init])

/-- C8: error-tensor frame and completeness.  The tensor is allocated as
`n_levels × npdir × npdir` zeros at construction; a successful objective
evaluation changes no slice other than slice `level` (and never the
tensor's length); with the default labels it overwrites every cell of
slice `level` with the evaluated matrix (row-major, `i` outer, `j` inner);
and when the level loop completes from level 0, every slice
`0 … n_levels−1` holds a fully evaluated `npdir × npdir` matrix — every
cell was overwritten. -/
theorem claim_error_tensor_frame_completeness :
    (∀ (model : List ℚ → List ℚ) (data : List ℚ) (nl nd : ℕ) (pp : ℚ),
      (MultiSweep.init model data nl nd pp).results =
        List.replicate nl (List.replicate nd (List.replicate nd 0))) ∧
    (∀ s s' : MSState, MultiSweep.compute_objective s = some s' →
      s'.results.length = s.results.length ∧
      ∀ L, L ≠ s.level → s'.results.getD L [] = s.results.getD L []) ∧
    (∀ s : MSState, s.param_labels = ("x", "y") →
      s.level < s.results.length →
      (s.results.getD s.level []).length = s.x.length →
      (∀ r ∈ s.results.getD s.level [], r.length = s.y.length) →
      ∃ s', MultiSweep.compute_objective s = some s' ∧
        s'.results.getD s.level [] = MultiSweep.evalMatrix s.model s.data s.x s.y) ∧
    (∀ s s' : MSState, s.param_labels = ("x", "y") → s.level = 0 →
      s.results.length = s.n_levels →
      (∀ L, L < s.n_levels → (s.results.getD L []).length = s.npdir ∧
        ∀ r ∈ s.results.getD L [], r.length = s.npdir) →
      MultiSweep.runLoop (s.n_levels - s.level) s = some s' →
      ∀ L, L < s.n_levels → ∃ xs ys, xs.length = s.npdir ∧ ys.length = s.npdir ∧
        s'.results.getD L [] = MultiSweep.evalMatrix s.model s.data xs ys) := by
  refine ⟨fun _ _ _ _ _ => rfl, ?_, ?_, ?_⟩
  · intro s s' h
    obtain ⟨hlen, hframe, _⟩ := MultiSweep.compute_objective_frame s s' h
    exact ⟨hlen, hframe⟩
  · intro s h hL hrows hcols
    obtain ⟨s', hco, hslice, _⟩ :=
      MultiSweep.compute_objective_char s h hL hrows hcols
    exact ⟨s', hco, hslice⟩
  · intro s s' hlab hlev hresl hshape h
    have hk : s.n_levels = s.level + (s.n_levels - s.level) := by omega
    obtain ⟨_, hfull⟩ := MultiSweep.runLoop_complete (s.n_levels - s.level) s s'
      hlab hk hresl (fun L _ hl2 => hshape L hl2) h
    intro L hl
    exact hfull L (by omega) hl

/-- The final state of scenario A's one-level run: `opt_point` moved to
the optimum `(4, 4)` and the level counter advanced to `1`. -/
def scenarioAFinal : MSState :=
  { scenarioA2 with opt_point := (4, 4), level := 1 }

/-- Evaluation of the optimum selection on scenario A's error matrix. -/
theorem scenarioA_optimum_eval :
    MultiSweep.get_new_params scenarioA2 = (4, 4) := by
  norm_num [scenarioA2, MultiSweep.get_new_params, argmin, List.getD]

/-- Evaluation of the full level loop of scenario A. -/
theorem scenarioA_runLoop_eval :
    MultiSweep.runLoop (scenarioA.n_levels - scenarioA.level) scenarioA =
      some scenarioAFinal := by
  have hrl := MultiSweep.run_level_eq scenarioA scenarioA2 scenarioA_objective_eval
  show MultiSweep.runLoop 1 scenarioA = some scenarioAFinal
  rw [MultiSweep.runLoop, hrl, Option.some_bind, MultiSweep.runLoop,
    scenarioA_optimum_eval]
  rfl

/-- Witness for C8: scenario A's one-level run leaves slice 0 holding a
fully evaluated 3×3 matrix. -/
theorem claim_error_tensor_frame_completeness_witness :
    (MultiSweep.init (fun p => p) [4, 6] 1 3 1).results =
      List.replicate 1 (List.replicate 3 (List.replicate 3 0)) ∧
    scenarioA2.results.length = (MultiSweep.set_bounds scenarioA).results.length ∧
    (∃ s', MultiSweep.compute_objective (MultiSweep.set_bounds scenarioA) = some s' ∧
      s'.results.getD (MultiSweep.set_bounds scenarioA).level [] =
        MultiSweep.evalMatrix (MultiSweep.set_bounds scenarioA).model
          (MultiSweep.set_bounds scenarioA).data
          (MultiSweep.set_bounds scenarioA).x (MultiSweep.set_bounds scenarioA).y) ∧
    (∃ xs ys, xs.length = scenarioA.npdir ∧ ys.length = scenarioA.npdir ∧
      scenarioAFinal.results.getD 0 [] =
        MultiSweep.evalMatrix scenarioA.model scenarioA.data xs ys) :=
  ⟨claim_error_tensor_frame_completeness.1 (fun p => p) [4, 6] 1 3 1,
   (claim_error_tensor_frame_completeness.2.1 (MultiSweep.set_bounds scenarioA)
     scenarioA2 scenarioA_objective_eval).1,
   claim_error_tensor_frame_completeness.2.2.1 (MultiSweep.set_bounds scenarioA)
     rfl (by decide)
     (by norm_num [scenarioA, MultiSweep.set_bounds, MultiSweep.computeAxis,
       MultiSweep.lowEndpoint, MultiSweep.highEndpoint, MultiSweep.anyB,
       MultiSweep.truthy, MultiSweep.shrink_factor, MultiSweep.set_fit_value,
       MultiSweep.init, linspace, List.range_succ, List.replicate])
     (by norm_num [scenarioA, MultiSweep.set_bounds, MultiSweep.computeAxis,
       MultiSweep.lowEndpoint, MultiSweep.highEndpoint, MultiSweep.anyB,
       MultiSweep.truthy, MultiSweep.shrink_factor, MultiSweep.set_fit_value,
       MultiSweep.init, linspace, List.range_succ, List.replicate]),
   claim_error_tensor_frame_completeness.2.2.2 scenarioA scenarioAFinal
     rfl rfl rfl (by decide) scenarioA_runLoop_eval 0 (by decide)⟩

/-- C9 counterexample: constructing a sweep with points-per-dimension `1`
(< 2) and the first parameter's bounds `(3, 1)` (lower > upper) succeeds
— `__init__` and `set_param_bounds` contain no validation or `raise`, so
no error surfaces before any black-box invocation. -/
theorem claim_eager_validation_counterexample :
    (construct (fun p => p) [] 1 1 1 (some (some 3, some 1)) none).isOk = true ∧
    (construct (fun p => p) [] 1 1 1 (some (some 3, some 1)) none).toOption.map
      (fun s => (s.npdir, s.param_bounds)) =
      some (1, ((some 3, some 1), (none, none))) :=
  ⟨rfl, rfl⟩

/-- C9 (amended): construction performs no validation at all — `__init__`
followed by `set_param_bounds` always succeeds, recording
points-per-dimension and the bound pairs verbatim, lower > upper and
points-per-dimension < 2 included; configuration errors are never surfaced
at construction. -/
theorem claim_no_validation_amended (model : List ℚ → List ℚ) (data : List ℚ)
    (nl nd : ℕ) (pp : ℚ) (p1 p2 : Option (Option ℚ × Option ℚ)) :
    construct model data nl nd pp p1 p2 =
      Except.ok (MultiSweep.set_param_bounds
        (MultiSweep.init model data nl nd pp) p1 p2) ∧
    (MultiSweep.set_param_bounds (MultiSweep.init model data nl nd pp) p1 p2).npdir = nd ∧
    (MultiSweep.set_param_bounds (MultiSweep.init model data nl nd pp) p1 p2).param_bounds =
      (p1.getD (none, none), p2.getD (none, none)) :=
  ⟨rfl, rfl, rfl⟩

/-- C10: the implicit default seed.  `run_sweep` takes no initial-point
argument (its sole input is the sweep state); construction initializes the
best point to `(0, 0)` with no bounds set, so if `set_fit_value` is never
called, level 0 recomputes both grids around the center `0` and (absent
bounds) both coordinate arrays consist entirely of zeros. -/
theorem claim_default_seed (model : List ℚ → List ℚ) (data : List ℚ)
    (nl nd : ℕ) (pp : ℚ) :
    (MultiSweep.init model data nl nd pp).opt_point = (0, 0) ∧
    (MultiSweep.init model data nl nd pp).param_bounds =
      ((none, none), (none, none)) ∧
    (MultiSweep.set_bounds (MultiSweep.init model data nl nd pp)).x =
      List.replicate nd 0 ∧
    (MultiSweep.set_bounds (MultiSweep.init model data nl nd pp)).y =
      List.replicate nd 0 := by
  refine ⟨rfl, rfl, ?_, ?_⟩
  · show MultiSweep.computeAxis 0 (MultiSweep.shrink_factor pp 0) (none, none) nd = _
    rw [computeAxis_zero_center]
  · show MultiSweep.computeAxis 0 (MultiSweep.shrink_factor pp 0) (none, none) nd = _
    rw [computeAxis_zero_center]

end PhysiCool
